import Mathlib

/-!
Verification of the content-screening gate of an LLM guard system.

The system has two layers:
* a denylist matcher (`SensitiveWordDetector`, from `sensitive_word_detector.py`),
  whose internal matching engine is the external `BanSubstrings` scanner of the
  `llm-guard` library (not part of this repository's sources); the engine is
  therefore modelled from the specification (§4.1), while the wrapper code
  (`scan`, `add_sensitive_words`, `get_stats`, `_load_sensitive_words`) is
  embedded directly from the source;
* a guarded completion orchestrator (`SafeLLMClient.safe_chat` together with
  `QwenAPIClient.simple_chat`, from `llm_api_client.py`), embedded directly
  from the source, with the remote completion call abstracted as an
  `Except`-valued outcome and provider invocations counted explicitly.

Strings are modelled as lists of characters; Python floats as rationals.
-/

/-- Strings are modelled as lists of characters. -/
abbrev Str := List Char

/-- The `MatchType` enumeration of the matching engine: `STR` matches anywhere
inside the text, `WORD` only at whole-word (token) boundaries. -/
inductive MatchType where
  | STR
  | WORD
deriving DecidableEq

/-- The string value carried by each `MatchType` member (Python `match_type.value`). -/
def MatchType.value : MatchType → Str
  | MatchType.STR => "str".data
  | MatchType.WORD => "word".data

/-- A term is blank when all of its characters are whitespace; in particular the
empty string is blank. -/
def isBlank (w : Str) : Bool := w.all Char.isWhitespace

/-- Python `str.strip()`: remove leading and trailing whitespace. -/
def stripStr (w : Str) : Str :=
  ((w.dropWhile Char.isWhitespace).reverse.dropWhile Char.isWhitespace).reverse

/-- `SensitiveWordDetector._load_sensitive_words` (source lines 56-69), with the
file contents abstracted to its list of lines: each line is stripped, and lines
that are empty after stripping are silently dropped
(`[line.strip() for line in f if line.strip()]`). -/
def loadWords (lines : List Str) : List Str :=
  (lines.map stripStr).filter (fun w => !w.isEmpty)

/-- Modelled from the spec: the configuration of the external `BanSubstrings`
matching engine of `llm-guard` (§4.1), which is not part of this repository's
sources.  It holds the ordered term list, the matching mode, and the
case/redaction/conjunction configuration. -/
structure BanSubstrings where
  substrings : List Str
  match_type : MatchType
  case_sensitive : Bool
  redact : Bool
  contains_all : Bool

/-- Modelled from the spec: a token-mode boundary is the string edge (`none`) or
a non-alphanumeric character (§4.1). -/
def boundaryOk : Option Char → Bool
  | none => true
  | some c => !c.isAlphanum

/-- Modelled from the spec: whether `pat` occurs in `txt` at position `i`.  In
`STR` mode any substring occurrence counts; in `WORD` mode the occurrence must
be bounded by non-alphanumeric characters or string edges on both sides (§4.1). -/
def matchAt (mode : MatchType) (pat txt : Str) (i : Nat) : Bool :=
  pat.isPrefixOf (txt.drop i) &&
    (match mode with
     | MatchType.STR => true
     | MatchType.WORD =>
         (if i = 0 then true else boundaryOk txt[i-1]?) && boundaryOk txt[i + pat.length]?)

/-- Modelled from the spec: whether `pat` occurs somewhere in `txt` under the
given mode. -/
def occursB (mode : MatchType) (pat txt : Str) : Bool :=
  (List.range (txt.length + 1)).any (matchAt mode pat txt)

/-- Modelled from the spec: the number of occurrence positions of `pat` in `txt`. -/
def occCount (mode : MatchType) (pat txt : Str) : Nat :=
  (List.range (txt.length + 1)).countP (matchAt mode pat txt)

/-- Modelled from the spec: case preparation — both sides are case-folded first
when `case_sensitive = false` (§4.1). -/
def BanSubstrings.prep (s : BanSubstrings) (cs : Str) : Str :=
  if s.case_sensitive then cs else cs.map Char.toLower

/-- Modelled from the spec: the effective term list — empty and whitespace-only
entries are dropped silently at construction (§4.1). -/
def BanSubstrings.effective (s : BanSubstrings) : List Str :=
  s.substrings.filter (fun w => !isBlank w)

/-- Modelled from the spec: whether the configured term `w` occurs in the text
`t` under the configured mode and case handling. -/
def BanSubstrings.termOccurs (s : BanSubstrings) (w t : Str) : Bool :=
  occursB s.match_type (s.prep w) (s.prep t)

/-- Modelled from the spec: the safety verdict — unsafe iff (`contains_all =
false` and some term matches) or (`contains_all = true` and every configured
term matches); an empty term list is trivially safe (§4.1). -/
def BanSubstrings.isUnsafe (s : BanSubstrings) (t : Str) : Bool :=
  if s.contains_all then
    !s.effective.isEmpty && s.effective.all (fun w => s.termOccurs w t)
  else
    !(s.effective.filter (fun w => s.termOccurs w t)).isEmpty

/-- Modelled from the spec: the total number of occurrences across all terms. -/
def BanSubstrings.totalOccs (s : BanSubstrings) (t : Str) : Nat :=
  (s.effective.map (fun w => occCount s.match_type (s.prep w) (s.prep t))).sum

/-- Modelled from the spec: the risk score of an unsafe text — the concrete
monotone curve `min 1 (0.3 + 0.1 * total_occurrences)` named as an acceptable
policy in §4.1. -/
def BanSubstrings.riskScore (s : BanSubstrings) (t : Str) : ℚ :=
  min 1 (3/10 + (s.totalOccs t : ℚ)/10)

/-- The fixed redaction marker used by this repository (`[REDACT]`, per the
module documentation and tests of `sensitive_word_detector.py`). -/
def redactMarker : Str := "[REDACT]".data

/-- Modelled from the spec: all candidate match spans `(start, length)`, in
left-to-right position order; at each position the first configured term that
matches there is taken. -/
def BanSubstrings.allSpans (s : BanSubstrings) (t : Str) : List (Nat × Nat) :=
  (List.range ((s.prep t).length + 1)).filterMap (fun i =>
    (s.effective.find? (fun w => matchAt s.match_type (s.prep w) (s.prep t) i)).map
      (fun w => (i, w.length)))

/-- Modelled from the spec: greedy left-to-right span selection — overlapping
spans are each masked once, non-overlapping after the first pass (§4.1). -/
def greedySpans : Nat → List (Nat × Nat) → List (Nat × Nat)
  | _, [] => []
  | bound, (i, l) :: rest =>
      if bound ≤ i then (i, l) :: greedySpans (i + l) rest else greedySpans bound rest

/-- Modelled from the spec: rebuild the text with every selected span replaced
by the marker; the marker text is not re-scanned (§4.1). -/
def applySpans (t mark : Str) : Nat → List (Nat × Nat) → Str
  | pos, [] => t.drop pos
  | pos, (i, l) :: rest => (t.drop pos).take (i - pos) ++ mark ++ applySpans t mark (i + l) rest

/-- Modelled from the spec: the redacted text — every matched span replaced by
the fixed marker, left to right (§4.1). -/
def BanSubstrings.redactText (s : BanSubstrings) (t : Str) : Str :=
  applySpans t redactMarker 0 (greedySpans 0 (s.allSpans t))

/-- Modelled from the spec: `BanSubstrings.scan` — returns the triple
`(sanitized_text, is_valid, risk_score)`: the text unchanged with verdict safe
and risk `0` when no (or, conjunctively, not all) terms match, and otherwise
the redacted text (or the original when `redact = false`), verdict unsafe, and
the risk score (§4.1). -/
def BanSubstrings.scan (s : BanSubstrings) (t : Str) : Str × Bool × ℚ :=
  if s.isUnsafe t then
    ((if s.redact then s.redactText t else t), false, s.riskScore t)
  else (t, true, 0)

/-- `SensitiveWordDetector` (source lines 17-152): configuration, the live term
list, and the engine instance built from it. -/
structure SensitiveWordDetector where
  match_type : MatchType
  case_sensitive : Bool
  redact : Bool
  contains_all : Bool
  sensitive_words : List Str
  scanner : BanSubstrings

/-- `SensitiveWordDetector.__init__` (source lines 20-54): load the word list
from the file lines, then build the engine from the loaded words and the
configuration. -/
def SensitiveWordDetector.init (lines : List Str) (mt : MatchType)
    (cs r ca : Bool) : SensitiveWordDetector :=
  { match_type := mt, case_sensitive := cs, redact := r, contains_all := ca,
    sensitive_words := loadWords lines,
    scanner := { substrings := loadWords lines, match_type := mt, case_sensitive := cs,
                 redact := r, contains_all := ca } }

/-- The body of `SensitiveWordDetector.scan` (source lines 71-96) with the
engine call's outcome abstracted: `Except.ok r` is the engine returning the
triple `r`, `Except.error e` is the engine raising an internal exception with
message `e`.  Empty input returns `(text, True, 0.0)` before the engine is
consulted; the defensive catch-all converts an engine failure into
`(text, False, 1.0)`. -/
def scanWith (engine : Except Str (Str × Bool × ℚ)) (text : Str) : Str × Bool × ℚ :=
  if text = [] then (text, true, 0)
  else
    match engine with
    | Except.ok r => r
    | Except.error _ => (text, false, 1)

/-- `SensitiveWordDetector.scan` (source lines 71-96): the total engine model
never fails, so the engine outcome is always `Except.ok`. -/
def SensitiveWordDetector.scan (d : SensitiveWordDetector) (text : Str) : Str × Bool × ℚ :=
  scanWith (Except.ok (d.scanner.scan text)) text

/-- `SensitiveWordDetector.add_sensitive_words` (source lines 124-142): extend
the live term list verbatim (`self.sensitive_words.extend(words)`) and rebuild
the engine from the extended list. -/
def SensitiveWordDetector.add_sensitive_words (d : SensitiveWordDetector)
    (words : List Str) : SensitiveWordDetector :=
  { d with sensitive_words := d.sensitive_words ++ words,
           scanner := { substrings := d.sensitive_words ++ words, match_type := d.match_type,
                        case_sensitive := d.case_sensitive, redact := d.redact,
                        contains_all := d.contains_all } }

/-- The record returned by `SensitiveWordDetector.get_stats` (source lines 144-152). -/
structure DetectorStats where
  total_sensitive_words : Nat
  match_type : Str
  case_sensitive : Bool
  redact : Bool
  contains_all : Bool

/-- `SensitiveWordDetector.get_stats` (source lines 144-152). -/
def SensitiveWordDetector.get_stats (d : SensitiveWordDetector) : DetectorStats :=
  { total_sensitive_words := d.sensitive_words.length,
    match_type := d.match_type.value,
    case_sensitive := d.case_sensitive,
    redact := d.redact,
    contains_all := d.contains_all }

/-- The result dictionary built by `SafeLLMClient.safe_chat`
(source lines 213-224). -/
structure SafeChatResult where
  original_input : Str
  input_safe : Bool
  input_risk_score : ℚ
  sanitized_input : Str
  response : Str
  output_safe : Bool
  output_risk_score : ℚ
  sanitized_output : Str
  blocked : Bool
  block_reason : Str

/-- The fixed block reason for unsafe input (source line 238). -/
def inputBlockReason : Str := "输入包含敏感词".data

/-- The fixed refusal message for unsafe input (source line 239). -/
def inputRefusalMessage : Str := "抱歉，您的输入包含不当内容，无法处理。".data

/-- The fixed block reason for unsafe output (source line 261). -/
def outputBlockReason : Str := "输出包含敏感词".data

/-- The fixed filtered-content message for unsafe output (source line 262). -/
def outputFilteredMessage : Str := "抱歉，模型生成的内容包含不当信息，已被过滤。".data

/-- The block-reason text built on a raised provider call (source line 270),
which is this fixed head concatenated with `str(e)`. -/
def apiFailReasonHead : Str := "API调用失败: ".data

/-- The fixed service-unavailable message (source line 271). -/
def serviceUnavailableMessage : Str := "抱歉，服务暂时不可用，请稍后重试。".data

/-- The error-reply text built by `QwenAPIClient.simple_chat` when the
underlying API call raises (source line 135), which is this fixed head
concatenated with `str(e)`. -/
def simpleChatErrorHead : Str := "抱歉，处理您的请求时出现错误: ".data

/-- `QwenAPIClient.simple_chat` (source lines 112-135) with the outcome of the
underlying `chat_completion` call (and the indexing of its response) abstracted:
`Except.ok content` is a well-formed reply, `Except.error e` is any raised
exception (transport error, timeout, malformed response) with message `e`.
The function catches every exception and returns an error-text reply containing
`str(e)`; it never raises. -/
def QwenAPIClient.simple_chat (chatOutcome : Except Str Str) : Str :=
  match chatOutcome with
  | Except.ok content => content
  | Except.error e => simpleChatErrorHead ++ e

/-- The result dictionary as first initialised by `SafeLLMClient.safe_chat`
(source lines 213-224). -/
def initResult (user_message : Str) : SafeChatResult :=
  { original_input := user_message, input_safe := true, input_risk_score := 0,
    sanitized_input := user_message, response := [], output_safe := true,
    output_risk_score := 0, sanitized_output := [], blocked := false, block_reason := [] }

/-- The model-call and output-check part of `SafeLLMClient.safe_chat`
(source lines 244-275).  `provider` abstracts `self.api_client.simple_chat`:
`Except.ok` is a returned reply, `Except.error e` is the call raising with
message `e` (handled by the `except` clause of `safe_chat`).  The returned
`Nat` counts provider invocations. -/
def SafeLLMClient.callProvider (sensitive_detector : Option SensitiveWordDetector)
    (provider : Str → Option Str → Except Str Str)
    (user_message : Str) (system_message : Option Str) (check_output : Bool)
    (result : SafeChatResult) : SafeChatResult × Nat :=
  match provider user_message system_message with
  | Except.error e =>
      ({ result with blocked := true, block_reason := apiFailReasonHead ++ e,
                     response := serviceUnavailableMessage }, 1)
  | Except.ok resp =>
      match check_output, sensitive_detector with
      | true, some det =>
          if (det.scan resp).2.1 = false then
            ({ result with response := outputFilteredMessage,
                           output_safe := (det.scan resp).2.1,
                           output_risk_score := (det.scan resp).2.2,
                           sanitized_output := (det.scan resp).1,
                           blocked := true, block_reason := outputBlockReason }, 1)
          else
            ({ result with response := resp,
                           output_safe := (det.scan resp).2.1,
                           output_risk_score := (det.scan resp).2.2,
                           sanitized_output := (det.scan resp).1 }, 1)
      | _, _ => ({ result with response := resp }, 1)

/-- `SafeLLMClient.safe_chat` (source lines 196-275): optional input check with
short-circuit, then the provider call and the optional output check.  The
returned `Nat` counts provider invocations. -/
def SafeLLMClient.safe_chat (sensitive_detector : Option SensitiveWordDetector)
    (provider : Str → Option Str → Except Str Str)
    (user_message : Str) (system_message : Option Str)
    (check_input check_output : Bool) : SafeChatResult × Nat :=
  match check_input, sensitive_detector with
  | true, some det =>
      if (det.scan user_message).2.1 = false then
        ({ initResult user_message with
             input_safe := (det.scan user_message).2.1,
             input_risk_score := (det.scan user_message).2.2,
             sanitized_input := (det.scan user_message).1,
             blocked := true, block_reason := inputBlockReason,
             response := inputRefusalMessage }, 0)
      else
        SafeLLMClient.callProvider sensitive_detector provider user_message system_message
          check_output
          { initResult user_message with
              input_safe := (det.scan user_message).2.1,
              input_risk_score := (det.scan user_message).2.2,
              sanitized_input := (det.scan user_message).1 }
  | _, _ =>
      SafeLLMClient.callProvider sensitive_detector provider user_message system_message
        check_output (initResult user_message)

/-- A concrete denylist word used by the witnesses. -/
def badWord : Str := "bad".data

/-- A concrete denylist word that also occurs, case-folded, inside the
redaction marker `[REDACT]`. -/
def redWord : Str := "red".data

/-- A concrete detector: denylist `["bad"]`, substring mode, case-insensitive,
redaction on, disjunctive verdict (the construction defaults). -/
def demoDetector : SensitiveWordDetector :=
  SensitiveWordDetector.init [badWord] MatchType.STR false true false

/-- A concrete detector whose single term `red` occurs inside the redaction
marker once case-folded. -/
def redDetector : SensitiveWordDetector :=
  SensitiveWordDetector.init [redWord] MatchType.STR false true false

/-- A concrete detector configured with `redact = false`. -/
def noRedactDetector : SensitiveWordDetector :=
  SensitiveWordDetector.init [badWord] MatchType.STR false false false

/-- A provider stub whose reply is the denylisted word itself. -/
def constProviderBad : Str → Option Str → Except Str Str := fun _ _ => Except.ok badWord

/-- The provider as realised by `QwenAPIClient`: `safe_chat` calls
`simple_chat`, which never raises — it converts any failure of the underlying
`chat_completion` call (abstracted by `chatOutcome`) into an error-text reply. -/
def qwenProviderWith (chatOutcome : Except Str Str) : Str → Option Str → Except Str Str :=
  fun _ _ => Except.ok (QwenAPIClient.simple_chat chatOutcome)

/-- A concrete raised-exception message. -/
def timeoutMsg : Str := "timeout".data

/-- A concrete raised-exception message. -/
def boomMsg : Str := "boom".data

/-- Concrete texts used by witnesses and counterexamples. -/
def helloText : Str := "hello there".data

/-- Concrete text containing the word `bad`. -/
def soBadText : Str := "so bad".data

/-- Concrete text equal to the word `red`. -/
def redText : Str := "red".data

/-- Concrete safe text. -/
def hiText : Str := "hi".data

/-- Concrete safe nonempty text. -/
def abcText : Str := "abc".data

/-- Concrete text containing the word `bad`. -/
def thisIsBadText : Str := "this is bad".data

/-- A list has `isEmpty = false` as soon as it has a member. -/
theorem isEmpty_false_of_mem {α : Type} (x : α) (l : List α) (h : x ∈ l) :
    l.isEmpty = false := by
  cases l with
  | nil => cases h
  | cons a as => rfl

/-- Engine-level core lemma: when no configured term occurs in `t`, the engine
returns `t` unchanged, the safe verdict, and risk `0`. -/
theorem BanSubstrings.scan_no_match (s : BanSubstrings) (t : Str)
    (h : ∀ w ∈ s.substrings, s.termOccurs w t = false) : s.scan t = (t, true, 0) := by
  have heff : ∀ w ∈ s.effective, s.termOccurs w t = false :=
    fun w hw => h w (List.mem_filter.mp hw).1
  have hunsafe : s.isUnsafe t = false := by
    unfold BanSubstrings.isUnsafe
    cases hca : s.contains_all with
    | false =>
        have hfil : s.effective.filter (fun w => s.termOccurs w t) = [] := by
          rw [List.filter_eq_nil_iff]
          intro w hw
          simp [heff w hw]
        simp [hfil]
    | true =>
        cases heq : s.effective with
        | nil => simp [heq]
        | cons w rest =>
            have hw : s.termOccurs w t = false :=
              heff w (by rw [heq]; exact List.mem_cons_self w rest)
            simp [heq, hw]
  simp [BanSubstrings.scan, hunsafe]

/-- Detector-level core lemma: when no configured term occurs in `t`, `scan`
returns `t` unchanged, the safe verdict, and risk `0`. -/
theorem detector_scan_no_match (d : SensitiveWordDetector) (t : Str)
    (h : ∀ w ∈ d.scanner.substrings, d.scanner.termOccurs w t = false) :
    d.scan t = (t, true, 0) := by
  unfold SensitiveWordDetector.scan scanWith
  by_cases ht : t = []
  · simp [ht]
  · simp [ht, BanSubstrings.scan_no_match d.scanner t h]

/-- Case preparation of the empty string is empty. -/
theorem prep_nil (s : BanSubstrings) : s.prep [] = [] := by
  unfold BanSubstrings.prep
  split <;> simp

/-- Case preparation preserves nonemptiness. -/
theorem prep_ne_nil (s : BanSubstrings) (w : Str) (hw : w ≠ []) : s.prep w ≠ [] := by
  unfold BanSubstrings.prep
  split
  · exact hw
  · intro hcon
    exact hw (List.map_eq_nil_iff.mp hcon)

/-- A nonempty pattern never occurs in the empty text. -/
theorem occursB_nil_of_ne_nil (mode : MatchType) (pat : Str) (hp : pat ≠ []) :
    occursB mode pat [] = false := by
  cases pat with
  | nil => exact absurd rfl hp
  | cons c cs => cases mode <;> rfl

/-- A non-blank term is nonempty. -/
theorem ne_nil_of_not_blank (w : Str) (h : isBlank w = false) : w ≠ [] := by
  intro hw
  rw [hw] at h
  simp [isBlank] at h

/-- If a nonempty configured term occurs in `t`, then `t` is nonempty. -/
theorem termOccurs_ne_nil (s : BanSubstrings) (w t : Str)
    (hwne : w ≠ []) (h : s.termOccurs w t = true) : t ≠ [] := by
  intro ht
  rw [ht, BanSubstrings.termOccurs, prep_nil,
    occursB_nil_of_ne_nil _ _ (prep_ne_nil s w hwne)] at h
  exact Bool.false_ne_true h

/-- Claim C5: fail-closed scanning.  `scan` is a total function (it never
raises for any string input), and when the internal matching engine fails
(the `Except.error` outcome of `scanWith`, modelling the `except` clause at
source lines 94-96), it returns the original text unredacted with
`is_safe = false` and `risk_score = 1.0`.  (For empty input the engine is never
consulted, source lines 81-82, hence the nonemptiness hypothesis.) -/
theorem scanWith_fail_closed (text e : Str) (h : text ≠ []) :
    scanWith (Except.error e) text = (text, false, 1) := by
  unfold scanWith
  rw [if_neg h]

/-- Witness for claim C5 at a concrete nonempty text and engine error. -/
theorem scanWith_fail_closed_witness :
    scanWith (Except.error boomMsg) abcText = (abcText, false, 1) :=
  scanWith_fail_closed abcText boomMsg (by decide)

/-- Claim C6: for every text `t` and every configured denylist such that no
term occurs in `t` (under the configured mode and case handling), `scan t`
returns `is_safe = true`, `risk_score = 0.0`, and `processed_text = t`
unchanged. -/
theorem scan_clean_text_is_safe (d : SensitiveWordDetector) (t : Str)
    (h : ∀ w ∈ d.scanner.substrings, d.scanner.termOccurs w t = false) :
    d.scan t = (t, true, 0) :=
  detector_scan_no_match d t h

/-- Witness for claim C6 at a concrete detector and clean text. -/
theorem scan_clean_text_is_safe_witness :
    demoDetector.scan helloText = (helloText, true, 0) :=
  scan_clean_text_is_safe demoDetector helloText (by decide)

/-- Claim C7: with `contains_all = false` (disjunctive mode), if some
configured non-blank term occurs in `t`, then `scan t` returns
`is_safe = false` and a risk score strictly greater than `0`.  (Denylist
entries are non-empty strings by the data model, §3; blank entries are dropped
at construction, §4.1.) -/
theorem scan_disjunctive_unsafe (d : SensitiveWordDetector) (t w : Str)
    (hmode : d.scanner.contains_all = false)
    (hw : w ∈ d.scanner.substrings)
    (hblank : isBlank w = false)
    (hocc : d.scanner.termOccurs w t = true) :
    (d.scan t).2.1 = false ∧ 0 < (d.scan t).2.2 := by
  have hwne : w ≠ [] := ne_nil_of_not_blank w hblank
  have ht : t ≠ [] := termOccurs_ne_nil d.scanner w t hwne hocc
  have hweff : w ∈ d.scanner.effective := by
    rw [BanSubstrings.effective, List.mem_filter]
    exact ⟨hw, by rw [hblank]; rfl⟩
  have hmemf : w ∈ d.scanner.effective.filter (fun x => d.scanner.termOccurs x t) :=
    List.mem_filter.mpr ⟨hweff, hocc⟩
  have hunsafe : d.scanner.isUnsafe t = true := by
    unfold BanSubstrings.isUnsafe
    simp [hmode, isEmpty_false_of_mem w _ hmemf]
  have hscan : d.scan t =
      ((if d.scanner.redact then d.scanner.redactText t else t), false,
        d.scanner.riskScore t) := by
    unfold SensitiveWordDetector.scan scanWith
    simp [ht, BanSubstrings.scan, hunsafe]
  rw [hscan]
  refine ⟨rfl, ?_⟩
  show (0 : ℚ) < d.scanner.riskScore t
  unfold BanSubstrings.riskScore
  apply lt_min
  · norm_num
  · positivity

/-- Witness for claim C7 at a concrete detector and matching text. -/
theorem scan_disjunctive_unsafe_witness :
    (demoDetector.scan soBadText).2.1 = false ∧ 0 < (demoDetector.scan soBadText).2.2 :=
  scan_disjunctive_unsafe demoDetector soBadText badWord (by decide) (by decide)
    (by decide) (by decide)

/-- Claim C8: for the empty input string, `scan` always returns
`(processed_text = "", is_safe = true, risk_score = 0.0)` without consulting
the denylist — the statement quantifies over an arbitrary detector, so it holds
for every denylist and every configuration. -/
theorem scan_empty_input (d : SensitiveWordDetector) : d.scan [] = ([], true, 0) := rfl

/-- Claim C9 counterexample: redaction idempotence fails as stated.  With the
denylist `["red"]`, case-insensitive, `redact = true`, scanning `"red"` yields
the processed text `[REDACT]`, and the marker itself contains the term `red`
once case-folded, so the second scan is unsafe — contradicting
`scan(scan(t).processed_text).is_safe == true` and the stated reason that the
redaction marker never itself matches a denylist term. -/
theorem scan_redact_not_idempotent :
    redDetector.scanner.redact = true ∧
    (redDetector.scan ((redDetector.scan redText).1)).2.1 = false := by decide

/-- Claim C9 (amended): with `redact = true`, re-scanning the processed text of
a first scan yields `is_safe = true` provided no configured term occurs (under
the configured mode and case handling) in that processed text.  The proviso is
necessary: the fixed marker `[REDACT]` can itself contain a denylist term
(e.g. `red`, case-folded), so the unconditional statement is false. -/
theorem scan_redact_idempotent_of_clean (d : SensitiveWordDetector) (t : Str)
    (_hr : d.scanner.redact = true)
    (h : ∀ w ∈ d.scanner.substrings, d.scanner.termOccurs w ((d.scan t).1) = false) :
    (d.scan ((d.scan t).1)).2.1 = true := by
  rw [detector_scan_no_match d ((d.scan t).1) h]

/-- Witness for amended claim C9 at a concrete detector and text. -/
theorem scan_redact_idempotent_of_clean_witness :
    (demoDetector.scan ((demoDetector.scan soBadText).1)).2.1 = true :=
  scan_redact_idempotent_of_clean demoDetector soBadText (by decide) (by decide)

/-- Claim C10: `add_sensitive_words` appends every element of `ws` verbatim to
the live term list (duplicates and blank strings included), so the
`total_sensitive_words` statistic grows by exactly `ws.length`, and the rebuilt
scanner used by all subsequent scans is configured with the extended list; by
contrast, construction-time loading strips each line and silently drops the
ones that are blank (empty or whitespace-only). -/
theorem add_sensitive_words_extends (d : SensitiveWordDetector) (ws : List Str) :
    (d.add_sensitive_words ws).sensitive_words = d.sensitive_words ++ ws ∧
    (d.add_sensitive_words ws).get_stats.total_sensitive_words
      = d.get_stats.total_sensitive_words + ws.length ∧
    (d.add_sensitive_words ws).scanner.substrings = d.sensitive_words ++ ws ∧
    (∀ l : Str, loadWords [l] = if isBlank l = true then [] else [stripStr l]) := by
  refine ⟨rfl, ?_, rfl, ?_⟩
  · show (d.sensitive_words ++ ws).length = d.sensitive_words.length + ws.length
    exact List.length_append d.sensitive_words ws
  · intro l
    show [stripStr l].filter (fun w => !w.isEmpty) = _
    by_cases hb : isBlank l = true
    · rw [if_pos hb]
      have hnil : stripStr l = [] := by
        unfold stripStr
        have hall : ∀ c ∈ l, Char.isWhitespace c = true := List.all_eq_true.mp hb
        have h1 : l.dropWhile Char.isWhitespace = [] := by
          rw [List.dropWhile_eq_nil_iff]
          intro c hc
          exact hall c hc
        rw [h1]
        rfl
      simp [hnil]
    · rw [if_neg hb]
      have hne : stripStr l ≠ [] := by
        intro hcon
        apply hb
        unfold stripStr at hcon
        have h2 := List.reverse_eq_nil_iff.mp hcon
        have h3 : ∀ c ∈ (l.dropWhile Char.isWhitespace).reverse, Char.isWhitespace c = true :=
          List.dropWhile_eq_nil_iff.mp h2
        have h4 : ∀ c ∈ l.dropWhile Char.isWhitespace, Char.isWhitespace c = true := by
          intro c hc
          exact h3 c (List.mem_reverse.mpr hc)
        rw [isBlank, List.all_eq_true]
        intro c hc
        by_cases hw : Char.isWhitespace c = true
        · exact hw
        · exfalso
          rcases (List.takeWhile_append_dropWhile (p := Char.isWhitespace) (l := l)) ▸ hc
            |> List.mem_append.mp with htk | hdr
          · exact hw (List.mem_takeWhile_imp htk)
          · exact hw (h4 c hdr)
      have hemp : (stripStr l).isEmpty = false := by
        cases hsl : stripStr l with
        | nil => exact absurd hsl hne
        | cons a as => rfl
      simp [List.filter, hemp]

/-- Claim C1: orchestrator short-circuit.  With input-checking enabled and a
detector present, whenever the input scan is unsafe, `safe_chat` returns a
result with `blocked = true`, `block_reason` the fixed input-unsafe reason,
`response` the fixed refusal message, `output_safe` left at its initial `true`
default, and the completion provider is never invoked (the invocation count is
`0`). -/
theorem safe_chat_input_block (det : SensitiveWordDetector)
    (provider : Str → Option Str → Except Str Str) (um : Str) (sm : Option Str) (co : Bool)
    (h : (det.scan um).2.1 = false) :
    (SafeLLMClient.safe_chat (some det) provider um sm true co).1.blocked = true ∧
    (SafeLLMClient.safe_chat (some det) provider um sm true co).1.block_reason
      = inputBlockReason ∧
    (SafeLLMClient.safe_chat (some det) provider um sm true co).1.response
      = inputRefusalMessage ∧
    (SafeLLMClient.safe_chat (some det) provider um sm true co).1.output_safe = true ∧
    (SafeLLMClient.safe_chat (some det) provider um sm true co).2 = 0 := by
  simp only [SafeLLMClient.safe_chat]
  rw [if_pos h]
  exact ⟨rfl, rfl, rfl, rfl, rfl⟩

/-- Witness for claim C1 at a concrete detector, provider and unsafe input. -/
theorem safe_chat_input_block_witness :
    (SafeLLMClient.safe_chat (some demoDetector) constProviderBad thisIsBadText none
        true true).1.blocked = true ∧
    (SafeLLMClient.safe_chat (some demoDetector) constProviderBad thisIsBadText none
        true true).1.block_reason = inputBlockReason ∧
    (SafeLLMClient.safe_chat (some demoDetector) constProviderBad thisIsBadText none
        true true).1.response = inputRefusalMessage ∧
    (SafeLLMClient.safe_chat (some demoDetector) constProviderBad thisIsBadText none
        true true).1.output_safe = true ∧
    (SafeLLMClient.safe_chat (some demoDetector) constProviderBad thisIsBadText none
        true true).2 = 0 :=
  safe_chat_input_block demoDetector constProviderBad thisIsBadText none true (by decide)

/-- Claim C2, code evaluation at the failing input.  When the external
completion call fails (here: `chat_completion` raising `timeout`),
`QwenAPIClient.simple_chat` catches the exception and returns an error-text
reply containing the raw exception message, so `safe_chat` treats it as a
normal provider reply: the result is NOT blocked, `block_reason` is empty, and
`response` carries the raw exception message — the `ProviderError` handling of
`safe_chat` (source lines 267-273) is unreachable through `QwenAPIClient`,
contradicting the claim. -/
theorem safe_chat_provider_failure_leaks :
    (SafeLLMClient.safe_chat (some demoDetector) (qwenProviderWith (Except.error timeoutMsg))
        hiText none true true).1.blocked = false ∧
    (SafeLLMClient.safe_chat (some demoDetector) (qwenProviderWith (Except.error timeoutMsg))
        hiText none true true).1.block_reason = [] ∧
    (SafeLLMClient.safe_chat (some demoDetector) (qwenProviderWith (Except.error timeoutMsg))
        hiText none true true).1.response = simpleChatErrorHead ++ timeoutMsg ∧
    (SafeLLMClient.safe_chat (some demoDetector) (qwenProviderWith (Except.error timeoutMsg))
        hiText none true true).2 = 1 := by decide

/-- Claim C3 counterexample: with output-checking enabled and a detector
configured with `redact = false`, a denylisted provider reply is blocked with
the fixed filtered message, but the `sanitized_output` field of the returned
result equals the raw unsafe provider text (`bad`, exactly what
`constProviderBad` replied) — so it is not true that no field of the result
contains the raw unsafe provider text. -/
theorem safe_chat_output_block_keeps_raw :
    noRedactDetector.redact = false ∧
    (SafeLLMClient.safe_chat (some noRedactDetector) constProviderBad hiText none
        true true).1.blocked = true ∧
    (SafeLLMClient.safe_chat (some noRedactDetector) constProviderBad hiText none
        true true).1.block_reason = outputBlockReason ∧
    (SafeLLMClient.safe_chat (some noRedactDetector) constProviderBad hiText none
        true true).1.sanitized_output = badWord := by decide

/-- Claim C3 (amended): with both checks enabled, when the input scan is safe
and the provider reply scans unsafe, `safe_chat` returns `blocked = true`,
`block_reason` the fixed output-unsafe reason, and `response` overwritten with
the fixed filtered-content message (never left as the raw provider reply);
however the `sanitized_output` field carries the scan's processed text, which
equals the raw provider reply whenever `redact = false` — so the raw unsafe
text is kept out of `response`, not out of every field. -/
theorem safe_chat_output_block (det : SensitiveWordDetector)
    (provider : Str → Option Str → Except Str Str) (um : Str) (sm : Option Str)
    (reply : Str)
    (hp : provider um sm = Except.ok reply)
    (hin : (det.scan um).2.1 = true)
    (hout : (det.scan reply).2.1 = false) :
    (SafeLLMClient.safe_chat (some det) provider um sm true true).1.blocked = true ∧
    (SafeLLMClient.safe_chat (some det) provider um sm true true).1.block_reason
      = outputBlockReason ∧
    (SafeLLMClient.safe_chat (some det) provider um sm true true).1.response
      = outputFilteredMessage ∧
    (SafeLLMClient.safe_chat (some det) provider um sm true true).1.sanitized_output
      = (det.scan reply).1 := by
  simp only [SafeLLMClient.safe_chat]
  rw [if_neg (by simp [hin])]
  simp only [SafeLLMClient.callProvider, hp]
  rw [if_pos hout]
  exact ⟨rfl, rfl, rfl, rfl⟩

/-- Witness for amended claim C3 at a concrete detector, provider stub and
texts. -/
theorem safe_chat_output_block_witness :
    (SafeLLMClient.safe_chat (some demoDetector) constProviderBad hiText none
        true true).1.blocked = true ∧
    (SafeLLMClient.safe_chat (some demoDetector) constProviderBad hiText none
        true true).1.block_reason = outputBlockReason ∧
    (SafeLLMClient.safe_chat (some demoDetector) constProviderBad hiText none
        true true).1.response = outputFilteredMessage ∧
    (SafeLLMClient.safe_chat (some demoDetector) constProviderBad hiText none
        true true).1.sanitized_output = (demoDetector.scan badWord).1 :=
  safe_chat_output_block demoDetector constProviderBad hiText none badWord rfl
    (by decide) (by decide)

/-- Helper for claim C4: `callProvider`, applied to an intermediate result that
is not yet blocked and has an empty reason, preserves the invariant
`blocked = true ↔ block_reason ≠ ""` on every path. -/
theorem callProvider_blocked_iff (sd : Option SensitiveWordDetector)
    (provider : Str → Option Str → Except Str Str) (um : Str) (sm : Option Str)
    (co : Bool) (r : SafeChatResult)
    (hb : r.blocked = false) (hr : r.block_reason = []) :
    ((SafeLLMClient.callProvider sd provider um sm co r).1.blocked = true ↔
      (SafeLLMClient.callProvider sd provider um sm co r).1.block_reason ≠ []) := by
  have hne1 : apiFailReasonHead ≠ [] := by decide
  have hne2 : outputBlockReason ≠ [] := by decide
  unfold SafeLLMClient.callProvider
  cases hp : provider um sm with
  | error e =>
      simp only []
      constructor
      · intro _ hcon
        exact hne1 (List.append_eq_nil.mp hcon).1
      · intro _
        trivial
  | ok resp =>
      cases co with
      | false =>
          cases sd with
          | none => simp [hb, hr]
          | some det => simp [hb, hr]
      | true =>
          cases sd with
          | none => simp [hb, hr]
          | some det =>
              simp only []
              by_cases hs : (det.scan resp).2.1 = false
              · simp [hs, hne2]
              · simp [hs, hb, hr]

/-- Claim C4: the `GuardResult` invariant.  For every detector option, provider,
message, and configuration flags, the result of `safe_chat` satisfies
`blocked = true` iff `block_reason` is non-empty. -/
theorem safe_chat_blocked_iff_reason (sd : Option SensitiveWordDetector)
    (provider : Str → Option Str → Except Str Str) (um : Str) (sm : Option Str)
    (ci co : Bool) :
    ((SafeLLMClient.safe_chat sd provider um sm ci co).1.blocked = true ↔
      (SafeLLMClient.safe_chat sd provider um sm ci co).1.block_reason ≠ []) := by
  have hne3 : inputBlockReason ≠ [] := by decide
  unfold SafeLLMClient.safe_chat
  cases ci with
  | false =>
      cases sd with
      | none => exact callProvider_blocked_iff none provider um sm co _ rfl rfl
      | some det => exact callProvider_blocked_iff (some det) provider um sm co _ rfl rfl
  | true =>
      cases sd with
      | none => exact callProvider_blocked_iff none provider um sm co _ rfl rfl
      | some det =>
          simp only []
          by_cases hs : (det.scan um).2.1 = false
          · simp [hs, hne3]
          · rw [if_neg hs]
            exact callProvider_blocked_iff (some det) provider um sm co _ rfl rfl
